import Mathlib

/-!
Shallow embedding of the patient-dashboard repository.

The repository has two independent React components:

* the dashboard component (source file with the `PatientDashboard` component):
  an in-memory patient list with derived filtered/sorted views, summary
  statistics, a risk-level derivation, and three asynchronous operations
  (status toggle, risk-score auto-fetch, sync) guarded against duplicate
  in-flight requests;
* the manager component (`PatientManager` in `src/PatientDashboard.tsx`):
  list/create/update/delete against a REST API with form validation.

Modelling conventions:

* Dates are modelled by their epoch-millisecond timestamps (an `Int`);
  the code stores them as strings and converts with `new Date(...).getTime()`,
  so the timestamp is the semantic content used by every computation.
* Optional record fields (`riskScore?`, `lastSync?`) are `Option` values,
  `none` meaning the field is absent from the object.
* JavaScript `Set<string>` state is modelled as a duplicate-free `List String`
  with insertion-order insert (`setInsert`) and delete (`setErase`).
* Each asynchronous handler is split at its `await` into a synchronous
  begin part (guard checks, marker insertion, the request it issues) and a
  completion part (state update and console/alert effects given the settled
  outcome of the request).  Network outcomes are explicit inputs: either a
  transport failure or an HTTP response carrying its `ok` flag and parsed
  JSON body, so that status-check behaviour is visible in the model.
* `String.prototype.localeCompare` is modelled as lexicographic string
  comparison (`localeCompareM`), the locale-independent reading.
-/

namespace PatientReview

/-- A dashboard patient record (`interface Patient` of the dashboard
component): identifier, name, age, last-visit timestamp, condition names,
active flag, optional risk score, optional last-sync timestamp. -/
structure Patient where
  id : String
  name : String
  age : Int
  lastVisit : Int
  conditions : List String
  isActive : Bool
  riskScore : Option Int
  lastSync : Option Int
deriving Repr, DecidableEq

/-- Derived summary statistics (`interface PatientStats`). -/
structure PatientStats where
  totalPatients : Nat
  activePatients : Nat
  averageAge : ℚ
deriving Repr, DecidableEq

/-- The network requests the dashboard component can issue. -/
inductive Request where
  | updateStatus (patientId : String) (isActive : Bool)
  | fetchRisk (patientId : String)
  | syncPatient (patientId : String)
deriving Repr, DecidableEq

/-- The observable non-network effects of the dashboard component:
`console.error` calls (message plus the underlying error), blocking alerts,
and invocations of the `onPatientUpdate` callback. -/
inductive Effect where
  | logError (msg : String) (err : String)
  | alert (msg : String)
  | notifyUpdate (p : Patient)
deriving Repr, DecidableEq

/-- The dashboard component state relevant to the modelled handlers:
the patient list, the global toggle busy flag `loading`, and the two
per-patient in-flight identifier sets. -/
structure DashState where
  patients : List Patient
  loading : Bool
  loadingRisk : List String
  syncingPatients : List String
deriving Repr, DecidableEq

/-- `new Set([...prev, x])`: insert preserving insertion order, no duplicate. -/
def setInsert (s : List String) (x : String) : List String :=
  if s.contains x then s else s ++ [x]

/-- `Set.prototype.delete`: remove an identifier from the tracked set. -/
def setErase (s : List String) (x : String) : List String :=
  s.filter (fun y => !(y == x))

/-- The settled outcome of a `fetch` call: a transport-level exception, or an
HTTP response with its `ok` flag and parsed JSON body. -/
inductive HttpOutcome (α : Type) where
  | failure (err : String)
  | response (ok : Bool) (body : α)
deriving Repr, DecidableEq

/-- `patientApi.updatePatientStatus`: throws on a non-2xx response
(`if (!response.ok) throw new Error('Failed to update patient status')`),
otherwise returns the parsed body. -/
def updatePatientStatusApi (o : HttpOutcome Patient) : Except String Patient :=
  match o with
  | .failure err => .error err
  | .response ok body =>
      if ok then .ok body else .error "Failed to update patient status"

/-- `patientApi.fetchRiskScore`: throws on a non-2xx response
(`Risk service unavailable`), otherwise returns `data.riskScore`. -/
def fetchRiskScoreApi (o : HttpOutcome Int) : Except String Int :=
  match o with
  | .failure err => .error err
  | .response ok body =>
      if ok then .ok body else .error "Risk service unavailable"

/-- A sync response body: a JSON object whose fields may each be present or
absent (`none` = key absent).  The dashboard merges it with object spread. -/
structure SyncPayload where
  id : Option String
  name : Option String
  age : Option Int
  lastVisit : Option Int
  conditions : Option (List String)
  isActive : Option Bool
  riskScore : Option Int
  lastSync : Option Int
deriving Repr, DecidableEq

/-- `patientApi.syncPatientData`: throws on a non-2xx response
(`Sync failed`), otherwise returns the parsed body. -/
def syncPatientDataApi (o : HttpOutcome SyncPayload) : Except String SyncPayload :=
  match o with
  | .failure err => .error err
  | .response ok body => if ok then .ok body else .error "Sync failed"

/-- The stats recomputation effect: total count, active count, average age
rounded to two decimal places (`Math.round(averageAge * 100) / 100`), zero
for the empty list. -/
def calcStats (patients : List Patient) : PatientStats :=
  { totalPatients := patients.length
    activePatients := (patients.filter (fun p => p.isActive)).length
    averageAge :=
      if patients.length > 0 then
        ((round (((patients.foldl (fun sum p => sum + p.age) 0 : Int) : ℚ)
            / (patients.length : ℚ) * 100) : ℤ) : ℚ) / 100
      else 0 }

/-- One step of the risk auto-fetch effect body for one scoreless patient:
the guard reads the `loadingRisk` snapshot `snap` captured by the effect
closure; when the patient is not marked, the functional update inserts its
identifier and the fetch request is issued. -/
def riskStep (snap : List String) (acc : DashState × List Request)
    (p : Patient) : DashState × List Request :=
  if snap.contains p.id then acc
  else
    ({ acc.1 with loadingRisk := setInsert acc.1.loadingRisk p.id },
     acc.2 ++ [Request.fetchRisk p.id])

/-- One run of the risk auto-fetch `useEffect` (dependency array
`[patients, loadingRisk]`): for each patient whose `riskScore` is absent,
skip it when the snapshot set already marks it, otherwise mark it in flight
and issue a risk-score fetch.  Returns the updated state and the requests
issued by this run. -/
def riskEffectRun (st : DashState) : DashState × List Request :=
  (st.patients.filter (fun p => p.riskScore.isNone)).foldl
    (riskStep st.loadingRisk) (st, [])

/-- Completion of one risk-score fetch: on success the score is merged into
the matching patient via a functional `setPatients` update; on failure the
error is logged (`console.error` with the patient id in the message and the
error object).  Either way the in-flight marker is deleted.  The handler
itself issues no request. -/
def riskFetchComplete (st : DashState) (patientId : String)
    (outcome : Except String Int) : DashState × List Effect :=
  match outcome with
  | .ok riskScore =>
      ({ st with
          patients := st.patients.map (fun p =>
            if p.id == patientId then { p with riskScore := some riskScore } else p)
          loadingRisk := setErase st.loadingRisk patientId }, [])
  | .error err =>
      ({ st with loadingRisk := setErase st.loadingRisk patientId },
       [Effect.logError ("Failed to fetch risk score for " ++ patientId ++ ":") err])

/-- The case-insensitive substring test `hay.toLowerCase().includes(sub)`.
`chStarts needle hay` tests whether `needle` is an initial run of `hay`. -/
def chStarts : List Char → List Char → Bool
  | [], _ => true
  | _ :: _, [] => false
  | n :: ns, h :: hs => n == h && chStarts ns hs

/-- `hay.includes(needle)` on character lists: the needle occurs as a
contiguous run somewhere in the haystack; the empty needle always occurs. -/
def chHasSub : List Char → List Char → Bool
  | [], needle => needle.isEmpty
  | h :: t, needle => chStarts needle (h :: t) || chHasSub t needle

/-- `String.prototype.includes` of one string in another. -/
def strHasSub (hay sub : String) : Bool :=
  chHasSub hay.toList sub.toList

/-- `String.prototype.toLowerCase`: lowercase every character. -/
def strLower (s : String) : String :=
  ⟨s.toList.map Char.toLower⟩

/-- The filter predicate of the filter-and-sort effect: the lowercased search
term occurs in the lowercased patient name, or in some lowercased condition
name. -/
def matchesSearch (searchTerm : String) (p : Patient) : Bool :=
  strHasSub (strLower p.name) (strLower searchTerm) ||
    p.conditions.any (fun condition =>
      strHasSub (strLower condition) (strLower searchTerm))

/-- The filtering stage: `patients.filter(...)` with `matchesSearch`. -/
def filterPatients (searchTerm : String) (patients : List Patient) : List Patient :=
  patients.filter (matchesSearch searchTerm)

/-- The three mutually exclusive sort modes (`'name' | 'age' | 'lastVisit'`). -/
inductive SortBy where
  | name
  | age
  | lastVisit
deriving Repr, DecidableEq

/-- `a.localeCompare(b)` modelled as lexicographic string comparison. -/
def localeCompareM (a b : String) : Int :=
  if a < b then -1 else if b < a then 1 else 0

/-- The sort comparator passed to `filtered.sort`: `localeCompare` on names,
age difference, or last-visit timestamp difference. -/
def cmpPatients : SortBy → Patient → Patient → Int
  | .name, a, b => localeCompareM a.name b.name
  | .age, a, b => a.age - b.age
  | .lastVisit, a, b => a.lastVisit - b.lastVisit

/-- The sorting stage: a comparator sort producing a list ordered by the
relation `cmpPatients sortBy a b ≤ 0`. -/
def sortPatients (sortBy : SortBy) (l : List Patient) : List Patient :=
  l.mergeSort (fun a b => decide (cmpPatients sortBy a b ≤ 0))

/-- The displayed list (`filteredPatients` state): the patient list filtered
by the search term, then sorted by the selected mode. -/
def displayedPatients (searchTerm : String) (sortBy : SortBy)
    (patients : List Patient) : List Patient :=
  sortPatients sortBy (filterPatients searchTerm patients)

/-- The synchronous part of `handlePatientToggle` up to its `await`:
the global `loading` flag blocks the whole handler; otherwise the patient is
looked up, the flag is set, and one status-update request (with the negated
active flag) is issued.  An unknown identifier issues nothing, and the
`finally` clause restores `loading` to `false` on that early return. -/
def handlePatientToggleBegin (st : DashState) (patientId : String) :
    DashState × List Request :=
  if st.loading then (st, [])
  else
    match st.patients.find? (fun p => p.id == patientId) with
    | none => (st, [])
    | some p =>
        ({ st with loading := true },
         [Request.updateStatus patientId (!p.isActive)])

/-- Completion of `handlePatientToggle`: on success the response's
`isActive` is written into the matching patient and `onPatientUpdate` is
invoked with the updated record; on failure the error is logged
(`console.error` with the error object) and a blocking alert is shown, the
patient list untouched.  The `finally` clause clears `loading`. -/
def handlePatientToggleComplete (st : DashState) (patientId : String)
    (outcome : Except String Patient) : DashState × List Effect :=
  match outcome with
  | .ok result =>
      ({ st with
          patients := st.patients.map (fun p =>
            if p.id == patientId then { p with isActive := result.isActive } else p)
          loading := false },
       (st.patients.filter (fun p => p.id == patientId)).map (fun p =>
         Effect.notifyUpdate { p with isActive := result.isActive }))
  | .error err =>
      ({ st with loading := false },
       [Effect.logError "Failed to update patient status:" err,
        Effect.alert "Failed to update patient status. Please try again."])

/-- A burst of toggle activations processed in order, each reading the state
left by the previous one (React flushes state between UI events); collects
every request issued. -/
def runToggleBursts (st : DashState) (pids : List String) :
    DashState × List Request :=
  pids.foldl (fun acc pid =>
    let r := handlePatientToggleBegin acc.1 pid
    (r.1, acc.2 ++ r.2)) (st, [])

/-- The record built by `addNewPatient`: a timestamp-string identifier,
a positional default name, age 45, last visit today, the default condition
list, active, and no optional fields. -/
def newPatientRecord (now today : Int) (patients : List Patient) : Patient :=
  { id := toString now
    name := "Patient " ++ toString (patients.length + 1)
    age := 45
    lastVisit := today
    conditions := ["General Checkup"]
    isActive := true
    riskScore := none
    lastSync := none }

/-- `addNewPatient`: appends the new record to the patient list
(`setPatients([...patients, newPatient])`). -/
def addNewPatient (now today : Int) (patients : List Patient) : List Patient :=
  patients ++ [newPatientRecord now today patients]

/-- The sync merge `{ ...p, ...syncedData, lastSync: syncedData.lastSync }`:
fields present in the response overwrite the stored record, fields absent
keep the stored values, and then `lastSync` is overwritten unconditionally
with the response's `lastSync` property (absent reads as the absent value). -/
def mergeSync (p : Patient) (d : SyncPayload) : Patient :=
  { id := d.id.getD p.id
    name := d.name.getD p.name
    age := d.age.getD p.age
    lastVisit := d.lastVisit.getD p.lastVisit
    conditions := d.conditions.getD p.conditions
    isActive := d.isActive.getD p.isActive
    riskScore := d.riskScore.or p.riskScore
    lastSync := d.lastSync }

/-- The synchronous part of `syncPatientData`: the per-patient in-flight set
blocks a duplicate sync for the same patient; otherwise the identifier is
marked and one sync request is issued. -/
def syncBegin (st : DashState) (patientId : String) : DashState × List Request :=
  if st.syncingPatients.contains patientId then (st, [])
  else
    ({ st with syncingPatients := setInsert st.syncingPatients patientId },
     [Request.syncPatient patientId])

/-- Completion of `syncPatientData`: on success the payload is merged into
the matching patient with `mergeSync`; on failure the error is logged with
no alert.  Either way the in-flight marker is deleted. -/
def syncComplete (st : DashState) (patientId : String)
    (outcome : Except String SyncPayload) : DashState × List Effect :=
  match outcome with
  | .ok syncedData =>
      ({ st with
          patients := st.patients.map (fun p =>
            if p.id == patientId then mergeSync p syncedData else p)
          syncingPatients := setErase st.syncingPatients patientId }, [])
  | .error err =>
      ({ st with syncingPatients := setErase st.syncingPatients patientId },
       [Effect.logError ("Failed to sync patient " ++ patientId ++ ":") err])

/-- `getPatientRiskLevel`: with a risk score present, threshold at 70 and 40;
otherwise classify by the floored number of whole days since the last visit
(`Math.floor((Date.now() - lastVisit) / 86400000)` — floor division of the
elapsed milliseconds by one day). -/
def getPatientRiskLevel (now : Int) (p : Patient) : String :=
  let daysSinceVisit := Int.fdiv (now - p.lastVisit) 86400000
  match p.riskScore with
  | some s =>
      if s ≥ 70 then "high"
      else if s ≥ 40 then "medium"
      else "low"
  | none =>
      if daysSinceVisit > 365 then "high"
      else if daysSinceVisit > 180 then "medium"
      else "low"

/-- A manager patient record (`interface Patient` of `PatientManager`):
server-assigned numeric identifier, name, email, age. -/
structure MPatient where
  id : Int
  name : String
  email : String
  age : Int
deriving Repr, DecidableEq

/-- The manager component state: the mirrored patient list, the three form
fields (age kept as the raw input string), the optional identifier being
edited, and the list-loading flag. -/
structure MState where
  patients : List MPatient
  name : String
  email : String
  age : String
  editingId : Option Int
  loading : Bool
deriving Repr, DecidableEq

/-- The network requests the manager can issue.  Create and update carry the
form fields as submitted (the code applies `parseInt` to the age string at
the boundary; the raw field is what determines the request). -/
inductive MRequest where
  | list
  | create (name email age : String)
  | update (id : Option Int) (name email age : String)
  | delete (id : Int)
deriving Repr, DecidableEq

/-- The observable non-network effects of the manager: `console.log` calls
(message plus the caught error) and blocking alerts. -/
inductive MEffect where
  | logMsg (msg : String) (err : String)
  | alert (msg : String)
deriving Repr, DecidableEq

/-- `fetchPatients`: issues the list request; the response body is stored as
the patient list without any HTTP status check; a transport exception is
logged and the list is untouched.  `loading` ends `false` either way. -/
def fetchPatientsM (st : MState) (o : HttpOutcome (List MPatient)) :
    MState × List MRequest × List MEffect :=
  match o with
  | .failure err =>
      ({ st with loading := false }, [MRequest.list],
       [MEffect.logMsg "Error fetching patients:" err])
  | .response _ body =>
      ({ st with patients := body, loading := false }, [MRequest.list], [])

/-- `addPatient`: any empty form field raises a blocking alert and issues no
request; otherwise one create request is issued, and the parsed response
body is appended to the list (no HTTP status check) with the form cleared;
a transport exception is only logged. -/
def addPatientM (st : MState) (o : HttpOutcome MPatient) :
    MState × List MRequest × List MEffect :=
  if st.name.isEmpty || st.email.isEmpty || st.age.isEmpty then
    (st, [], [MEffect.alert "Please fill all fields"])
  else
    match o with
    | .failure err =>
        (st, [MRequest.create st.name st.email st.age],
         [MEffect.logMsg "Error adding patient:" err])
    | .response _ patient =>
        ({ st with patients := st.patients ++ [patient],
                   name := "", email := "", age := "" },
         [MRequest.create st.name st.email st.age], [])

/-- `updatePatient`: the same empty-field guard; otherwise one update request
is issued, and the parsed response body replaces the record whose identifier
equals `editingId` (no HTTP status check), clearing the form and edit mode;
a transport exception is only logged. -/
def updatePatientM (st : MState) (o : HttpOutcome MPatient) :
    MState × List MRequest × List MEffect :=
  if st.name.isEmpty || st.email.isEmpty || st.age.isEmpty then
    (st, [], [MEffect.alert "Please fill all fields"])
  else
    match o with
    | .failure err =>
        (st, [MRequest.update st.editingId st.name st.email st.age],
         [MEffect.logMsg "Error updating patient:" err])
    | .response _ patient =>
        ({ st with
            patients := st.patients.map (fun q =>
              if st.editingId == some q.id then patient else q)
            name := "", email := "", age := "", editingId := none },
         [MRequest.update st.editingId st.name st.email st.age], [])

/-- `deletePatient`: one delete request; any settled response (whatever its
status — the body is never read) removes the record locally; a transport
exception is only logged and the list is untouched. -/
def deletePatientM (st : MState) (id : Int) (o : HttpOutcome Unit) :
    MState × List MRequest × List MEffect :=
  match o with
  | .failure err =>
      (st, [MRequest.delete id], [MEffect.logMsg "Error deleting patient:" err])
  | .response _ _ =>
      ({ st with patients := st.patients.filter (fun p => !(p.id == id)) },
       [MRequest.delete id], [])

/-- A sample dashboard patient (mirrors the first mock patient of the test
suite, with no risk score). -/
def pA : Patient :=
  { id := "1", name := "John Doe", age := 35, lastVisit := 0,
    conditions := ["Hypertension", "Diabetes"], isActive := true,
    riskScore := none, lastSync := none }

/-- A sample dashboard state holding just `pA`, idle. -/
def dashEx : DashState :=
  { patients := [pA], loading := false, loadingRisk := [], syncingPatients := [] }

/-- The sample dashboard state while the risk fetch for `pA` is in flight. -/
def dashEx2 : DashState :=
  { dashEx with loadingRisk := ["1"] }

/-- A sample manager state with a completely filled form. -/
def mstEx : MState :=
  { patients := [], name := "John Doe", email := "john@example.com",
    age := "30", editingId := none, loading := false }

/-- A sample manager state with an empty form. -/
def mstEmpty : MState :=
  { patients := [], name := "", email := "", age := "",
    editingId := none, loading := false }

/-- A sample manager patient. -/
def mpEx : MPatient :=
  { id := 1, name := "John Doe", email := "john@example.com", age := 30 }

/-- A sample dashboard patient that has both optional fields present. -/
def pSyncEx : Patient :=
  { pA with riskScore := some 65, lastSync := some 5 }

/-- A sync response body with every field absent. -/
def dEmptyPayload : SyncPayload :=
  { id := none, name := none, age := none, lastVisit := none,
    conditions := none, isActive := none, riskScore := none, lastSync := none }

/-! ## Helper lemmas -/

/-- The comparator order `localeCompareM a b ≤ 0` is the lexicographic
string order. -/
theorem localeCompareM_le_iff (a b : String) : localeCompareM a b ≤ 0 ↔ a ≤ b := by
  unfold localeCompareM
  by_cases h1 : a < b
  · simp only [if_pos h1]
    exact iff_of_true (by norm_num) (le_of_lt h1)
  · by_cases h2 : b < a
    · simp only [if_neg h1, if_pos h2]
      exact iff_of_false (by norm_num) (not_le.mpr h2)
    · simp only [if_neg h1, if_neg h2]
      exact iff_of_true le_rfl (le_of_not_lt h2)

/-- A comparator sort whose nonpositive comparator values coincide with a
total preorder on the key yields a list pairwise ordered by that preorder. -/
theorem pairwise_sortPatients {keyLE : Patient → Patient → Prop} (sb : SortBy)
    (hiff : ∀ a b, cmpPatients sb a b ≤ 0 ↔ keyLE a b)
    (htrans : ∀ a b c, keyLE a b → keyLE b c → keyLE a c)
    (htotal : ∀ a b, keyLE a b ∨ keyLE b a)
    (l : List Patient) : (sortPatients sb l).Pairwise keyLE := by
  unfold sortPatients
  have h := @List.sorted_mergeSort Patient
    (fun a b => decide (cmpPatients sb a b ≤ 0))
    (fun a b c hab hbc => by
      simp only [decide_eq_true_eq, hiff] at hab hbc ⊢
      exact htrans _ _ _ hab hbc)
    (fun a b => by
      simp only [Bool.or_eq_true, decide_eq_true_eq, hiff]
      exact htotal a b)
    l
  exact h.imp (fun hab => (hiff _ _).mp (of_decide_eq_true hab))

/-- The empty needle occurs in every character list. -/
theorem chHasSub_nil (l : List Char) : chHasSub l [] = true := by
  cases l <;> rfl

/-- The empty search string occurs in every string. -/
theorem strHasSub_lower_empty (hay : String) :
    strHasSub hay (strLower "") = true := by
  unfold strHasSub strLower
  exact chHasSub_nil _

/-- The empty search term matches every patient. -/
theorem matchesSearch_empty (p : Patient) : matchesSearch "" p = true := by
  unfold matchesSearch
  rw [strHasSub_lower_empty]
  rfl

/-- While the busy flag is set, a burst of toggle activations leaves the
state untouched and issues nothing. -/
theorem toggleFold_blocked (st : DashState) (h : st.loading = true) :
    ∀ (pids : List String) (acc : List Request),
      pids.foldl (fun a pid =>
        let r := handlePatientToggleBegin a.1 pid
        (r.1, a.2 ++ r.2)) (st, acc) = (st, acc) := by
  intro pids
  induction pids with
  | nil => intro acc; rfl
  | cons p ps ih =>
      intro acc
      have hb : handlePatientToggleBegin st p = (st, []) := by
        unfold handlePatientToggleBegin
        rw [h]
        rfl
      simp only [List.foldl_cons]
      show ps.foldl _
        ((handlePatientToggleBegin st p).1, acc ++ (handlePatientToggleBegin st p).2) = _
      rw [hb]
      simpa using ih acc

/-- The requests issued by the risk auto-fetch fold: one fetch per scoreless
patient not marked in the captured snapshot, in list order. -/
theorem riskFold_requests (snap : List String) :
    ∀ (ps : List Patient) (st : DashState) (acc : List Request),
      (ps.foldl (riskStep snap) (st, acc)).2 =
        acc ++ (ps.filter (fun p => !snap.contains p.id)).map
          (fun p => Request.fetchRisk p.id) := by
  intro ps
  induction ps with
  | nil => intro st acc; simp
  | cons p t ih =>
      intro st acc
      simp only [List.foldl_cons, riskStep]
      by_cases h : snap.contains p.id
      · have hm : p.id ∈ snap := by simpa using h
        rw [if_pos h, ih]
        simp [List.filter_cons, hm]
      · have hm : p.id ∉ snap := by simpa using h
        rw [if_neg h]
        show (t.foldl (riskStep snap) _).2 = _
        rw [ih]
        simp [List.filter_cons, hm]

/-- The requests issued by one run of the risk auto-fetch effect. -/
theorem riskEffectRun_requests (st : DashState) :
    (riskEffectRun st).2 =
      ((st.patients.filter (fun p => p.riskScore.isNone)).filter
          (fun p => !st.loadingRisk.contains p.id)).map
        (fun p => Request.fetchRisk p.id) := by
  unfold riskEffectRun
  rw [riskFold_requests]
  simp

/-! ## Claim theorems -/

/-- C3: for every patient, the derived risk level is: when a numeric risk
score is present, high iff the score is at least 70, medium iff it is at
least 40 and below 70, low iff below 40, whatever the visit date; when no
risk score is present, classify by the (floored) number of days elapsed
since the last visit: high iff more than 365, medium iff more than 180 and
at most 365, low otherwise.  In particular a score of 65 reports medium,
70 reports high and 39 reports low. -/
theorem C3_risk_level_derivation (now : Int) (i nm : String) (a lv : Int)
    (c : List String) (act : Bool) (ls : Option Int) (s : Int) :
    (getPatientRiskLevel now ⟨i, nm, a, lv, c, act, some s, ls⟩ = "high" ↔ s ≥ 70) ∧
    (getPatientRiskLevel now ⟨i, nm, a, lv, c, act, some s, ls⟩ = "medium" ↔
      (40 ≤ s ∧ s < 70)) ∧
    (getPatientRiskLevel now ⟨i, nm, a, lv, c, act, some s, ls⟩ = "low" ↔ s < 40) ∧
    (getPatientRiskLevel now ⟨i, nm, a, lv, c, act, none, ls⟩ = "high" ↔
      Int.fdiv (now - lv) 86400000 > 365) ∧
    (getPatientRiskLevel now ⟨i, nm, a, lv, c, act, none, ls⟩ = "medium" ↔
      (180 < Int.fdiv (now - lv) 86400000 ∧ Int.fdiv (now - lv) 86400000 ≤ 365)) ∧
    (getPatientRiskLevel now ⟨i, nm, a, lv, c, act, none, ls⟩ = "low" ↔
      Int.fdiv (now - lv) 86400000 ≤ 180) ∧
    getPatientRiskLevel now ⟨i, nm, a, lv, c, act, some 65, ls⟩ = "medium" ∧
    getPatientRiskLevel now ⟨i, nm, a, lv, c, act, some 70, ls⟩ = "high" ∧
    getPatientRiskLevel now ⟨i, nm, a, lv, c, act, some 39, ls⟩ = "low" := by
  unfold getPatientRiskLevel
  refine ⟨?_, ?_, ?_, ?_, ?_, ?_, ?_, ?_, ?_⟩ <;>
    simp only [] <;> split_ifs <;> simp_all <;> omega

/-- C4: for every patient list and search term, the filtered view is a
sublist of the full list; a patient is a member of the filtered view iff it
is a member of the full list and its name or some condition name contains
the search term case-insensitively; the empty term matches every patient;
and the displayed (sorted) list has exactly the members of the filtered
view. -/
theorem C4_filter_predicate (searchTerm : String) (patients : List Patient) :
    (filterPatients searchTerm patients).Sublist patients ∧
    (∀ p, p ∈ filterPatients searchTerm patients ↔
      p ∈ patients ∧ matchesSearch searchTerm p = true) ∧
    (∀ p, matchesSearch "" p = true) ∧
    (∀ sortBy p, p ∈ displayedPatients searchTerm sortBy patients ↔
      p ∈ filterPatients searchTerm patients) := by
  refine ⟨List.filter_sublist _, fun p => List.mem_filter, matchesSearch_empty, ?_⟩
  intro sortBy p
  exact (List.mergeSort_perm (filterPatients searchTerm patients) _).mem_iff

/-- C5: for every patient list, search term and sort mode, the displayed
list is ordered non-decreasingly by the selected key: lexicographically by
name, ascending by age, or ascending by last-visit timestamp. -/
theorem C5_sort_modes (searchTerm : String) (patients : List Patient) :
    (displayedPatients searchTerm SortBy.name patients).Pairwise
      (fun a b => a.name ≤ b.name) ∧
    (displayedPatients searchTerm SortBy.age patients).Pairwise
      (fun a b => a.age ≤ b.age) ∧
    (displayedPatients searchTerm SortBy.lastVisit patients).Pairwise
      (fun a b => a.lastVisit ≤ b.lastVisit) := by
  unfold displayedPatients
  refine ⟨?_, ?_, ?_⟩
  · exact pairwise_sortPatients SortBy.name
      (fun a b => localeCompareM_le_iff a.name b.name)
      (fun a b c => le_trans) (fun a b => le_total a.name b.name) _
  · exact pairwise_sortPatients SortBy.age
      (fun a b => sub_nonpos)
      (fun a b c => le_trans) (fun a b => le_total a.age b.age) _
  · exact pairwise_sortPatients SortBy.lastVisit
      (fun a b => sub_nonpos)
      (fun a b c => le_trans) (fun a b => le_total a.lastVisit b.lastVisit) _

/-- C2: while one status-toggle request is outstanding (the single global
busy flag is set), every further toggle activation — for any patient, the
guard is not per-patient — is blocked, changing nothing and issuing no
request; and a burst starting from an idle state with a known patient
issues exactly one network call however many activations follow. -/
theorem C2_toggle_busy_guard (st : DashState) (pids : List String) :
    (st.loading = true → runToggleBursts st pids = (st, [])) ∧
    (∀ pid p, st.loading = false →
      st.patients.find? (fun q => q.id == pid) = some p →
      (runToggleBursts st (pid :: pids)).2.length = 1) := by
  constructor
  · intro h
    exact toggleFold_blocked st h pids []
  · intro pid p h hfind
    unfold runToggleBursts
    have hb : handlePatientToggleBegin st pid =
        ({ st with loading := true }, [Request.updateStatus pid (!p.isActive)]) := by
      unfold handlePatientToggleBegin
      rw [h, if_neg (by simp), hfind]
    simp only [List.foldl_cons]
    show (pids.foldl _
      ((handlePatientToggleBegin st pid).1,
        [] ++ (handlePatientToggleBegin st pid).2)).2.length = 1
    rw [hb]
    rw [toggleFold_blocked { st with loading := true } rfl pids]
    rfl

/-- C2 witness: three rapid activations for patient `"1"` from the idle
sample state collapse into exactly one network call. -/
theorem C2_toggle_busy_guard_witness :
    (runToggleBursts dashEx ["1", "1", "1"]).2.length = 1 :=
  (C2_toggle_busy_guard dashEx ["1", "1"]).2 "1" pA rfl rfl

/-- C6: when a status-toggle request fails, the error is logged together
with the underlying error value, a blocking alert is shown, and the patient
list — so in particular the target patient's active flag — still has its
pre-call value: the synchronous begin part never touched it (no optimistic
update) and the failure completion leaves it unchanged. -/
theorem C6_toggle_failure (st : DashState) (patientId err : String) :
    (handlePatientToggleBegin st patientId).1.patients = st.patients ∧
    handlePatientToggleComplete st patientId (Except.error err) =
      ({ st with loading := false },
       [Effect.logError "Failed to update patient status:" err,
        Effect.alert "Failed to update patient status. Please try again."]) ∧
    (handlePatientToggleComplete st patientId (Except.error err)).1.patients
      = st.patients := by
  refine ⟨?_, rfl, rfl⟩
  unfold handlePatientToggleBegin
  split
  · rfl
  · split <;> rfl

/-- C8: adding a patient via the dashboard appends exactly one new record —
the total count of the recomputed stats increments by one — whose
identifier is the stringified creation timestamp and whose condition list
is the default one; every previously present patient is unchanged in place
and none is deleted. -/
theorem C8_add_new_patient (now today : Int) (patients : List Patient) :
    addNewPatient now today patients
      = patients ++ [newPatientRecord now today patients] ∧
    (addNewPatient now today patients).length = patients.length + 1 ∧
    (calcStats (addNewPatient now today patients)).totalPatients
      = (calcStats patients).totalPatients + 1 ∧
    (addNewPatient now today patients).take patients.length = patients ∧
    (newPatientRecord now today patients).id = toString now ∧
    (newPatientRecord now today patients).conditions = ["General Checkup"] := by
  refine ⟨rfl, by simp [addNewPatient], by simp [calcStats, addNewPatient], ?_, rfl, rfl⟩
  exact List.take_left patients _

/-- C1 counterexample: the claim "on failure the in-flight marker is cleared
without any retry of the fetch for that patient" is false on the code.  The
effect's dependency array is `[patients, loadingRisk]` (dashboard source,
line 111), so the effect runs again whenever the in-flight set changes.
Concretely, from the sample state with the single scoreless patient `"1"`:
the effect run issues the fetch; the fetch fails, which leaves the patient
list unchanged, logs the error and clears the marker; and the very next
effect run — triggered precisely by that marker change, with no patient-list
change — issues a second fetch for the same patient.  The fetch is therefore
retried. -/
theorem C1_counterexample :
    (riskEffectRun dashEx).2 = [Request.fetchRisk "1"] ∧
    (riskFetchComplete (riskEffectRun dashEx).1 "1"
        (Except.error "Risk service unavailable")).1.patients = dashEx.patients ∧
    (riskFetchComplete (riskEffectRun dashEx).1 "1"
        (Except.error "Risk service unavailable")).2
      = [Effect.logError "Failed to fetch risk score for 1:"
          "Risk service unavailable"] ∧
    (riskEffectRun (riskFetchComplete (riskEffectRun dashEx).1 "1"
        (Except.error "Risk service unavailable")).1).2
      = [Request.fetchRisk "1"] :=
  ⟨rfl, rfl, rfl, rfl⟩

/-- C1 (amended): one run of the auto-fetch effect issues exactly one fetch
for each patient lacking a risk score and not marked in the in-flight set,
and none for marked patients (the per-patient guard against duplicate
concurrent fetches); on success the returned score is merged into the
matching patient and the marker is cleared; on failure the error is logged
with the underlying error value, the patient list is unchanged, the marker
is cleared, and the completion handler itself issues no fetch — but because
the effect also re-runs when the in-flight set changes, any patient still
lacking a score and no longer marked is fetched again on the next effect
run, so a failed fetch is in fact retried. -/
theorem C1_risk_auto_fetch (st : DashState) (patientId err : String) (score : Int) :
    ((riskEffectRun st).2 =
      ((st.patients.filter (fun p => p.riskScore.isNone)).filter
          (fun p => !st.loadingRisk.contains p.id)).map
        (fun p => Request.fetchRisk p.id)) ∧
    (riskFetchComplete st patientId (Except.ok score) =
      ({ st with
          patients := st.patients.map (fun p =>
            if p.id == patientId then { p with riskScore := some score } else p)
          loadingRisk := setErase st.loadingRisk patientId }, [])) ∧
    (riskFetchComplete st patientId (Except.error err) =
      ({ st with loadingRisk := setErase st.loadingRisk patientId },
       [Effect.logError ("Failed to fetch risk score for " ++ patientId ++ ":") err])) ∧
    ((riskFetchComplete st patientId (Except.error err)).1.patients = st.patients) ∧
    (∀ p, p ∈ (riskFetchComplete st patientId (Except.error err)).1.patients →
      p.riskScore = none →
      (riskFetchComplete st patientId (Except.error err)).1.loadingRisk.contains p.id
        = false →
      Request.fetchRisk p.id ∈
        (riskEffectRun (riskFetchComplete st patientId (Except.error err)).1).2) := by
  refine ⟨riskEffectRun_requests st, rfl, rfl, rfl, ?_⟩
  intro p hmem hscore hmark
  rw [riskEffectRun_requests]
  refine List.mem_map.mpr ⟨p, ?_, rfl⟩
  refine List.mem_filter.mpr ⟨List.mem_filter.mpr ⟨hmem, by simp [hscore]⟩, ?_⟩
  simp only [hmark]
  rfl

/-- C1 witness: in the sample state where the risk fetch for the scoreless
patient `"1"` is in flight, a failure completion leads the next effect run
to issue the fetch for `"1"` again. -/
theorem C1_risk_auto_fetch_witness :
    Request.fetchRisk "1" ∈
      (riskEffectRun (riskFetchComplete dashEx2 "1" (Except.error "boom")).1).2 :=
  (C1_risk_auto_fetch dashEx2 "1" "boom" 0).2.2.2.2 pA (by decide) rfl rfl

/-- C10: a successful sync replaces each matching patient by the spread
merge, whose `lastSync` field is exactly the response's `lastSync` property:
when the response omits it, the stored value is overwritten with the absent
value (cleared); every other field absent from the response keeps its prior
stored value. -/
theorem C10_sync_merge (st : DashState) (patientId : String) (p : Patient)
    (d : SyncPayload) :
    (syncComplete st patientId (Except.ok d)).1.patients =
      st.patients.map (fun q => if q.id == patientId then mergeSync q d else q) ∧
    (mergeSync p d).lastSync = d.lastSync ∧
    (d.lastSync = none → (mergeSync p d).lastSync = none) ∧
    (d.id = none → (mergeSync p d).id = p.id) ∧
    (d.name = none → (mergeSync p d).name = p.name) ∧
    (d.age = none → (mergeSync p d).age = p.age) ∧
    (d.lastVisit = none → (mergeSync p d).lastVisit = p.lastVisit) ∧
    (d.conditions = none → (mergeSync p d).conditions = p.conditions) ∧
    (d.isActive = none → (mergeSync p d).isActive = p.isActive) ∧
    (d.riskScore = none → (mergeSync p d).riskScore = p.riskScore) := by
  refine ⟨rfl, rfl, ?_, ?_, ?_, ?_, ?_, ?_, ?_, ?_⟩ <;>
    intro h <;> simp [mergeSync, h]

/-- C10 witness: syncing the sample patient (which has a stored `lastSync`)
against a response with every field absent clears `lastSync` and keeps the
name. -/
theorem C10_sync_merge_witness :
    (mergeSync pSyncEx dEmptyPayload).lastSync = none ∧
    (mergeSync pSyncEx dEmptyPayload).name = pSyncEx.name :=
  ⟨(C10_sync_merge dashEx "1" pSyncEx dEmptyPayload).2.2.1 rfl,
   (C10_sync_merge dashEx "1" pSyncEx dEmptyPayload).2.2.2.2.1 rfl⟩

/-- C7: each manager operation (list, create, update, delete) updates the
mirrored patient list on success and leaves it unchanged on a failure, whose
only effect is a log entry; and for the manager a failure is a transport
exception only — its behaviour on an HTTP response is independent of the
`ok` status flag — whereas each dashboard API function turns a non-2xx
response into a failure by its explicit status check. -/
theorem C7_manager_error_handling (st : MState) (err : String) (ok : Bool)
    (plist : List MPatient) (p : MPatient) (id : Int) :
    (fetchPatientsM st (.failure err)).1.patients = st.patients ∧
    (fetchPatientsM st (.failure err)).2.2
      = [MEffect.logMsg "Error fetching patients:" err] ∧
    (fetchPatientsM st (.response ok plist)).1.patients = plist ∧
    fetchPatientsM st (.response ok plist) = fetchPatientsM st (.response true plist) ∧
    (deletePatientM st id (.failure err)).1 = st ∧
    (deletePatientM st id (.failure err)).2.2
      = [MEffect.logMsg "Error deleting patient:" err] ∧
    (deletePatientM st id (.response ok ())).1.patients
      = st.patients.filter (fun q => !(q.id == id)) ∧
    deletePatientM st id (.response ok ()) = deletePatientM st id (.response true ()) ∧
    ((st.name.isEmpty || st.email.isEmpty || st.age.isEmpty) = false →
      (addPatientM st (.failure err)).1 = st ∧
      (addPatientM st (.failure err)).2.2
        = [MEffect.logMsg "Error adding patient:" err] ∧
      (addPatientM st (.response ok p)).1.patients = st.patients ++ [p] ∧
      addPatientM st (.response ok p) = addPatientM st (.response true p) ∧
      (updatePatientM st (.failure err)).1 = st ∧
      (updatePatientM st (.failure err)).2.2
        = [MEffect.logMsg "Error updating patient:" err] ∧
      (updatePatientM st (.response ok p)).1.patients
        = st.patients.map (fun q => if st.editingId == some q.id then p else q) ∧
      updatePatientM st (.response ok p) = updatePatientM st (.response true p)) ∧
    (∀ body : Patient, updatePatientStatusApi (.response false body)
      = Except.error "Failed to update patient status") ∧
    (∀ n : Int, fetchRiskScoreApi (.response false n)
      = Except.error "Risk service unavailable") ∧
    (∀ d : SyncPayload, syncPatientDataApi (.response false d)
      = Except.error "Sync failed") ∧
    updatePatientStatusApi (.failure err) = Except.error err := by
  refine ⟨rfl, rfl, rfl, rfl, rfl, rfl, rfl, rfl, ?_, fun _ => rfl, fun _ => rfl,
    fun _ => rfl, rfl⟩
  intro h
  refine ⟨?_, ?_, ?_, ?_, ?_, ?_, ?_, ?_⟩ <;>
    simp [addPatientM, updatePatientM, h]

/-- C7 witness: with the filled sample form, a transport failure of create
and of update leaves the state unchanged. -/
theorem C7_manager_error_handling_witness :
    (addPatientM mstEx (HttpOutcome.failure "boom")).1 = mstEx ∧
    (updatePatientM mstEx (HttpOutcome.failure "boom")).1 = mstEx := by
  have h := C7_manager_error_handling mstEx "boom" true [] mpEx 1
  obtain ⟨-, -, -, -, -, -, -, -, himp, -, -, -, -⟩ := h
  have h2 := himp (by decide)
  exact ⟨h2.1, h2.2.2.2.2.1⟩

/-- C9: for manager create and update, if any of the three form fields is
empty the operation raises the blocking alert, issues no network request,
and leaves the whole state unchanged; when all three fields are non-empty
exactly one request is issued, whatever the outcome. -/
theorem C9_form_validation (st : MState) (o o2 : HttpOutcome MPatient) :
    ((st.name.isEmpty || st.email.isEmpty || st.age.isEmpty) = true →
      addPatientM st o = (st, [], [MEffect.alert "Please fill all fields"]) ∧
      updatePatientM st o2 = (st, [], [MEffect.alert "Please fill all fields"])) ∧
    ((st.name.isEmpty || st.email.isEmpty || st.age.isEmpty) = false →
      (addPatientM st o).2.1 = [MRequest.create st.name st.email st.age] ∧
      (updatePatientM st o2).2.1
        = [MRequest.update st.editingId st.name st.email st.age]) := by
  constructor
  · intro h
    exact ⟨by simp [addPatientM, h], by simp [updatePatientM, h]⟩
  · intro h
    constructor
    · cases o <;> simp [addPatientM, h]
    · cases o2 <;> simp [updatePatientM, h]

/-- C9 witness: submitting create on the empty sample form alerts and issues
no request; on the filled sample form it issues exactly the create request. -/
theorem C9_form_validation_witness :
    addPatientM mstEmpty (HttpOutcome.failure "x")
      = (mstEmpty, [], [MEffect.alert "Please fill all fields"]) ∧
    (addPatientM mstEx (HttpOutcome.failure "x")).2.1
      = [MRequest.create "John Doe" "john@example.com" "30"] := by
  constructor
  · exact ((C9_form_validation mstEmpty (HttpOutcome.failure "x")
      (HttpOutcome.failure "x")).1 (by decide)).1
  · exact ((C9_form_validation mstEx (HttpOutcome.failure "x")
      (HttpOutcome.failure "x")).2 (by decide)).1

end PatientReview
